import Mathlib

set_option maxRecDepth 16384

/-!
Shallow embedding of the homeHub UI scripts.

Embedded sources:
* `app/ui/static/js/shortcuts-enhance.js` — the `toBool` coercion helper,
  `applyFromText`, and the `applyFromIPX` status reconciler (relay-snapshot
  building plus per-control painting).
* `app/ui/static/menu.js` (anchored variant) — the sidebar menu with the
  `aria-expanded` toggle, the missing-anchor guard, and active-link marking.
* the self-constructing menu variant — its `open`/`close` pair mutating a
  backdrop `hidden` class and a panel `transform` style.

JavaScript numbers are modelled as exact rationals (`ℚ`); `NaN` and the
infinities are represented by `none` in `Option ℚ`, which is what the
`Number.isFinite` guard in the source distinguishes.  Double rounding is not
modelled; string-to-number conversion that would overflow the double range
(≥ 2^1024 in magnitude) yields `none`, matching overflow to `Infinity`.
-/

namespace HomeHub

/-- JS values as they occur in the JSON payload fields and in the `toBool`
helper's input: booleans, `null`, `undefined`, (finite) numbers, strings. -/
inductive JSValue where
  | vBool (b : Bool)
  | vNull
  | vUndefined
  | vNum (q : ℚ)
  | vStr (s : String)
deriving DecidableEq

/-- JS `ToBoolean`, i.e. the `!!v` coercion used on the payload's `on` field:
`false`, `null`, `undefined`, `0` and `""` are falsy, everything else truthy. -/
def jsTruthy : JSValue → Bool
  | .vBool b => b
  | .vNull => false
  | .vUndefined => false
  | .vNum q => decide (q ≠ 0)
  | .vStr s => decide (s ≠ "")

/-- JS `String.prototype.trim`, written structurally on the character list
(so it is kernel-computable): drop whitespace from both ends. -/
def jsTrim (s : String) : String :=
  String.mk
    (((s.toList.dropWhile Char.isWhitespace).reverse.dropWhile
      Char.isWhitespace).reverse)

/-- JS `String.prototype.toLowerCase` on the ASCII range, written
structurally on the character list. -/
def jsLower (s : String) : String := String.mk (s.toList.map Char.toLower)

/-- `toBool` from shortcuts-enhance.js:
`if (v === true || v === false) return v;`
`if (v == null) return false;`
`if (typeof v === 'number') return v !== 0;`
`const s = String(v).trim().toLowerCase();`
`return (s === '1' || s === 'true' || s === 'on' || s === 'yes');` -/
def toBool : JSValue → Bool
  | .vBool b => b
  | .vNull => false
  | .vUndefined => false
  | .vNum q => decide (q ≠ 0)
  | .vStr s =>
    let t := jsLower (jsTrim s)
    decide (t = "1" ∨ t = "true" ∨ t = "on" ∨ t = "yes")

/-! ### JS string-to-number conversion (`Number(s)` / ECMAScript `ToNumber`) -/

/-- Value of a hexadecimal digit character, `none` if not a hex digit. -/
def hexVal (c : Char) : Option ℕ :=
  if c.isDigit then some (c.toNat - 48)
  else if 'a' ≤ c ∧ c ≤ 'f' then some (c.toNat - 87)
  else if 'A' ≤ c ∧ c ≤ 'F' then some (c.toNat - 55)
  else none

/-- Value of a non-empty digit string in the given radix; `none` when some
character is not a digit of that radix or the string is empty. -/
def radixVal (base : ℕ) (cs : List Char) : Option ℕ :=
  if cs = [] then none
  else
    cs.foldl
      (fun acc c =>
        acc.bind fun n =>
          (hexVal c).bind fun d => if d < base then some (n * base + d) else none)
      (some 0)

/-- Value of a (pre-checked) decimal digit string. -/
def natOfDigits (cs : List Char) : ℕ :=
  cs.foldl (fun n c => n * 10 + (c.toNat - 48)) 0

/-- Parse a string that must consist solely of decimal digits, non-empty. -/
def parseNatDigits (cs : List Char) : Option ℕ :=
  if cs ≠ [] ∧ cs.all (fun c => c.isDigit) then some (natOfDigits cs) else none

/-- Parse an optionally signed all-digit string (an exponent body). -/
def parseSignedNat : List Char → Option ℤ
  | '+' :: r => (parseNatDigits r).map Int.ofNat
  | '-' :: r => (parseNatDigits r).map (fun n => -(n : ℤ))
  | r => (parseNatDigits r).map Int.ofNat

/-- Parse the exponent tail of a decimal literal: either nothing, or
`e`/`E` followed by an optionally signed digit string. -/
def parseExpPart : List Char → Option ℤ
  | [] => some 0
  | 'e' :: r => parseSignedNat r
  | 'E' :: r => parseSignedNat r
  | _ => none

/-- Split off the fractional digits after a leading `.`, if present. -/
def splitFrac : List Char → List Char × List Char
  | '.' :: r => r.span (fun c => c.isDigit)
  | l => ([], l)

/-- `digits * 10 ^ exp10` as an exact rational (built with `mkRat` so the
value is kernel-computable). -/
def ratOfSci (digits : ℕ) (exp10 : ℤ) : ℚ :=
  if 0 ≤ exp10 then mkRat ((digits * 10 ^ exp10.toNat : ℕ) : ℤ) 1
  else mkRat (digits : ℤ) (10 ^ (-exp10).toNat)

/-- Parse an unsigned decimal literal `digits [. digits] [exp]` or
`. digits [exp]`; `"Infinity"` is a valid literal but not finite, hence
`none` here.  The value is `(integer digits ++ fraction digits)` scaled by
`10 ^ (exponent - number of fraction digits)`. -/
def parseUnsignedDec (cs : List Char) : Option ℚ :=
  if cs = "Infinity".toList then none
  else
    let ip := cs.span (fun c => c.isDigit)
    let fp := splitFrac ip.2
    if ip.1 = [] ∧ fp.1 = [] then none
    else
      (parseExpPart fp.2).map fun e =>
        ratOfSci (natOfDigits (ip.1 ++ fp.1)) (e - fp.1.length)

/-- The finite result of ECMAScript `ToNumber` on a string, before the
double-overflow cutoff: trim, empty means `0`, radix-prefixed integer
literals, otherwise an optionally signed decimal literal. `none` models a
non-finite result (`NaN` or `±Infinity`). -/
def strToNumberRaw (s : String) : Option ℚ :=
  match (jsTrim s).toList with
  | [] => some 0
  | '0' :: 'x' :: r => (radixVal 16 r).map (fun n => mkRat (n : ℤ) 1)
  | '0' :: 'X' :: r => (radixVal 16 r).map (fun n => mkRat (n : ℤ) 1)
  | '0' :: 'b' :: r => (radixVal 2 r).map (fun n => mkRat (n : ℤ) 1)
  | '0' :: 'B' :: r => (radixVal 2 r).map (fun n => mkRat (n : ℤ) 1)
  | '0' :: 'o' :: r => (radixVal 8 r).map (fun n => mkRat (n : ℤ) 1)
  | '0' :: 'O' :: r => (radixVal 8 r).map (fun n => mkRat (n : ℤ) 1)
  | '+' :: r => parseUnsignedDec r
  | '-' :: r => (parseUnsignedDec r).map Neg.neg
  | cs => parseUnsignedDec cs

/-- A magnitude at or above `2 ^ 1024` overflows the double range to
`±Infinity`, which `Number.isFinite` rejects; model it as `none`.
(`2 ^ 1024 ≤ |q|` written on the integer parts so it kernel-computes.) -/
def strToNumber (s : String) : Option ℚ :=
  (strToNumberRaw s).bind fun q =>
    if 2 ^ 1024 * q.den ≤ q.num.natAbs then none else some q

/-- JS `ToNumber` on a model value (used by the `|0` coercion on the payload's
`relay` field): booleans map to 1/0, `null` to 0, `undefined` to `NaN`. -/
def jsToNumber : JSValue → Option ℚ
  | .vBool true => some 1
  | .vBool false => some 0
  | .vNull => some 0
  | .vUndefined => none
  | .vNum q => some q
  | .vStr s => strToNumber s

/-- Truncation toward zero of a rational (the integer part a double keeps
under `ToInt32`). -/
def jsTrunc (q : ℚ) : ℤ := Int.tdiv q.num (q.den : ℤ)

/-- Wrap an integer into the signed 32-bit range (2^31 = 2147483648,
2^32 = 4294967296). -/
def wrap32 (n : ℤ) : ℤ := (n + 2147483648) % 4294967296 - 2147483648

/-- `ToInt32` of a possibly non-finite number: `NaN` and `±Infinity` give 0. -/
def toInt32 : Option ℚ → ℤ
  | none => 0
  | some q => wrap32 (jsTrunc q)

/-- The `v | 0` coercion applied to the payload's `relay` field. -/
def jsToInt32 (v : JSValue) : ℤ := toInt32 (jsToNumber v)

/-! ### The status reconciler (`applyFromIPX` in shortcuts-enhance.js) -/

/-- One element of the `j.relays` payload list; both fields are arbitrary
JSON values as far as the consumer is concerned. -/
structure RelayEntry where
  relay : JSValue
  /-- the payload's `on` field (`on` itself is notation in Lean). -/
  onVal : JSValue
deriving DecidableEq

/-- One iteration of the snapshot-building loop:
`const idx0 = (it.relay|0) - 1;`
`if (idx0 >= 0 && idx0 < states.length){ states[idx0] = !!it.on; }` -/
def applyEntry (states : List Bool) (it : RelayEntry) : List Bool :=
  let idx0 : ℤ := jsToInt32 it.relay - 1
  if 0 ≤ idx0 ∧ idx0 < (states.length : ℤ) then
    states.set idx0.toNat (jsTruthy it.onVal)
  else states

/-- `states = new Array(32).fill(false); (j.relays || []).forEach(...)`. -/
def buildStates (relays : List RelayEntry) : List Bool :=
  relays.foldl applyEntry (List.replicate 32 false)

/-- Outcome of the `fetch('/ipx/status?max_relays=32')` round-trip, as far as
the reconciler can distinguish: the fetch (or the `r.json()` parse) threw,
the response was not `ok`, or JSON was obtained (with the `relays` field
possibly absent). -/
inductive FetchOutcome where
  | fail
  | notOk
  | ok (relays : Option (List RelayEntry))
deriving DecidableEq

/-- The value of the local `states` variable after the try/catch: it stays
`null` unless the fetch succeeded with an ok response and parseable JSON. -/
def snapshotOf : FetchOutcome → Option (List Bool)
  | .fail => none
  | .notOk => none
  | .ok relays => some (buildStates (relays.getD []))

/-- One `.icon-btn` element: its `data-source` and `data-ipx-index`
attributes (absent attributes read back as `undefined`), and the
`textContent` of its `.js-display` child when that child exists. -/
structure Control where
  source : Option String
  ipxIndex : Option String
  display : Option String
deriving DecidableEq

/-- `const val = disp ? disp.textContent : '';` -/
def textOf (c : Control) : String := c.display.getD ""

/-- `applyFromText`: paint from the displayed text through `toBool`. -/
def applyFromText (c : Control) : Bool := toBool (.vStr (textOf c))

/-- `Number(btn.dataset.ipxIndex)`: an absent attribute is `undefined`,
whose numeric conversion is `NaN` (`none`); a present attribute is a
string converted by `ToNumber`. -/
def jsToNumberAttr : Option String → Option ℚ
  | none => none
  | some s => strToNumber s

/-- `!!states[idx0]` for a JS array of booleans and a number index: an
element when the index is a canonical array index in range, otherwise
`undefined`, i.e. `false`. -/
def arrLookup (arr : List Bool) (q : ℚ) : Bool :=
  if q.den = 1 ∧ 0 ≤ q.num ∧ q.num < (arr.length : ℤ) then
    arr.getD q.num.toNat false
  else false

/-- Painting of one control by the reconciler loop:
`if (src === 'ipx' && Number.isFinite(idx0)){ ... states ? !!states[idx0] : false ... } else { applyFromText(btn); }` -/
def reconcileControl (states : Option (List Bool)) (c : Control) : Bool :=
  if c.source = some "ipx" ∧ (jsToNumberAttr c.ipxIndex).isSome then
    match states with
    | none => false
    | some arr => arrLookup arr ((jsToNumberAttr c.ipxIndex).getD 0)
  else applyFromText c

/-- The reconciler's paint pass over every `.icon-btn`, given the snapshot. -/
def reconcile (states : Option (List Bool)) (cs : List Control) : List Bool :=
  cs.map (reconcileControl states)

/-- The whole of `applyFromIPX`: build the snapshot from the fetch outcome,
then paint every control. The result lists each control's `is-on` class. -/
def applyFromIPX (f : FetchOutcome) (cs : List Control) : List Bool :=
  reconcile (snapshotOf f) cs

/-- Modelled from the spec (claim C3's wording, for comparison with
`reconcileControl`): take the ipx branch only when `ipxIndex` is a finite
NON-NEGATIVE INTEGER, reading `snapshot[ipxIndex]` (false when the snapshot
is null or the index is at or beyond capacity 32); every other control —
including an ipx-sourced one with a finite negative or fractional index —
falls back to text coercion. -/
def specPaintOriginal (states : Option (List Bool)) (c : Control) : Bool :=
  match jsToNumberAttr c.ipxIndex with
  | some q =>
    if c.source = some "ipx" ∧ q.den = 1 ∧ 0 ≤ q then
      match states with
      | none => false
      | some arr => if q.num.toNat < 32 then arr.getD q.num.toNat false else false
    else applyFromText c
  | none => applyFromText c

/-- Modelled from the amended spec wording: take the ipx branch whenever the
source is "ipx" and `ipxIndex` converts to a finite number; inside it, the
painted state is the snapshot slot when the snapshot is non-null and the
index is an integer within the snapshot's length, and false otherwise;
all other controls fall back to text coercion. -/
def specPaintAmended (states : Option (List Bool)) (c : Control) : Bool :=
  match jsToNumberAttr c.ipxIndex with
  | some q =>
    if c.source = some "ipx" then
      match states with
      | none => false
      | some arr =>
        if 0 ≤ q ∧ q.den = 1 ∧ q.num.toNat < arr.length then
          arr.getD q.num.toNat false
        else false
    else applyFromText c
  | none => applyFromText c

/-! ### The anchored sidebar menu (`app/ui/static/menu.js`) -/

namespace MenuJs

/-- The DOM state the menu script mutates: whether `#sidebar` carries the
`-translate-x-full` class, whether `#overlay` carries `hidden`, and the
trigger's `aria-expanded` attribute (absent on a page that did not set it). -/
structure State where
  sidebarOffscreen : Bool
  overlayHidden : Bool
  ariaExpanded : Option String
deriving DecidableEq

/-- `open`: remove `-translate-x-full`, remove `hidden`, set
`aria-expanded="true"`. (Named `openPanel`: `open` is a Lean keyword.) -/
def openPanel (_s : State) : State :=
  { sidebarOffscreen := false, overlayHidden := false, ariaExpanded := some "true" }

/-- `close`: add `-translate-x-full`, add `hidden`, set
`aria-expanded="false"`. -/
def closePanel (_s : State) : State :=
  { sidebarOffscreen := true, overlayHidden := true, ariaExpanded := some "false" }

/-- The trigger's click handler:
`const expanded = btn.getAttribute('aria-expanded') === 'true';`
`expanded ? close() : open();` -/
def clickTrigger (s : State) : State :=
  if s.ariaExpanded = some "true" then closePanel s else openPanel s

end MenuJs

/-! ### The self-constructing menu variant (second observed implementation) -/

namespace SelfMenu

/-- The DOM state its `open`/`close` mutate: the backdrop's `hidden` class
and the panel's inline `transform` style. -/
structure State where
  backdropHidden : Bool
  panelTransform : String
deriving DecidableEq

/-- `open`: `backdrop.classList.remove('hidden'); panel.style.transform = 'translateX(0%)';` -/
def openPanel (_s : State) : State :=
  { backdropHidden := false, panelTransform := "translateX(0%)" }

/-- `close`: `backdrop.classList.add('hidden'); panel.style.transform = 'translateX(-100%)';` -/
def closePanel (_s : State) : State :=
  { backdropHidden := true, panelTransform := "translateX(-100%)" }

end SelfMenu

/-! ### Route normalization and active-link marking (both menu variants) -/

/-- `location.pathname.replace(/\/+$/, '')`: drop every trailing slash. -/
def stripTrailingSlashes (p : String) : String :=
  String.mk ((p.toList.reverse.dropWhile (fun c => c = '/')).reverse)

/-- `const path = location.pathname.replace(/\/+$/,'') || '/';` -/
def normalizePath (p : String) : String :=
  let t := stripTrailingSlashes p
  if t = "" then "/" else t

/-- The active-link pass: for each link's `href` attribute (absent reads as
null and never matches), whether the `active` class is added. -/
def markLinks (path : String) (hrefs : List (Option String)) : List Bool :=
  let route := normalizePath path
  hrefs.map (fun h => decide (h = some route))

/-- The nav links of the self-constructing menu variant, in panel order. -/
def navHrefs : List (Option String) :=
  [some "/", some "/events", some "/weather", some "/ipx",
   some "/inputs", some "/health/ui"]

/-! ### Initialization of the anchored menu (missing-anchor guard) -/

/-- The observable effects of running the anchored menu script once:
how many event listeners were attached (trigger click, overlay click,
window keydown) and which links got the `active` class. -/
structure InitResult where
  listeners : ℕ
  marks : List Bool
deriving DecidableEq

/-- The whole anchored-menu script:
`if (!btn || !sidebar || !overlay) return;` then listener wiring and
active-link marking. The three booleans say whether `#menuBtn`,
`#sidebar`, `#overlay` were found. -/
def initMenu (btn sidebar overlay : Bool) (path : String)
    (hrefs : List (Option String)) : InitResult :=
  if btn && sidebar && overlay then
    { listeners := 3, marks := markLinks path hrefs }
  else
    { listeners := 0, marks := hrefs.map fun _ => false }

/-! ## Helper lemmas about the snapshot-building fold -/

lemma applyEntry_length (s : List Bool) (e : RelayEntry) :
    (applyEntry s e).length = s.length := by
  simp only [applyEntry]
  split <;> simp

lemma foldl_applyEntry_length (l : List RelayEntry) (s : List Bool) :
    (l.foldl applyEntry s).length = s.length := by
  induction l generalizing s with
  | nil => rfl
  | cons e t ih => rw [List.foldl_cons, ih, applyEntry_length]

lemma applyEntry_getElem?_ne (s : List Bool) (e : RelayEntry) (i : ℕ)
    (h : jsToInt32 e.relay ≠ (i : ℤ) + 1) :
    (applyEntry s e)[i]? = s[i]? := by
  simp only [applyEntry]
  split
  · next hc =>
      apply List.getElem?_set_ne
      intro heq
      apply h
      omega
  · rfl

lemma foldl_applyEntry_getElem?_ne (l : List RelayEntry) (s : List Bool) (i : ℕ)
    (h : ∀ e ∈ l, jsToInt32 e.relay ≠ (i : ℤ) + 1) :
    (l.foldl applyEntry s)[i]? = s[i]? := by
  induction l generalizing s with
  | nil => rfl
  | cons e t ih =>
    rw [List.foldl_cons, ih _ (fun x hx => h x (List.mem_cons_of_mem _ hx)),
      applyEntry_getElem?_ne _ _ _ (h e (List.mem_cons_self _ _))]

lemma jsToInt32_vNum_nat (n : ℕ) (h : n ≤ 32) :
    jsToInt32 (.vNum (n : ℚ)) = (n : ℤ) := by
  have h1 : jsToInt32 (.vNum (n : ℚ)) = wrap32 (jsTrunc (n : ℚ)) := rfl
  rw [h1]
  unfold jsTrunc wrap32
  rw [Rat.num_natCast, Rat.den_natCast, Nat.cast_one, Int.tdiv_one]
  omega

lemma countP_eq_value_le_one {α : Type} [DecidableEq α] (l : List α)
    (hl : l.Nodup) (a : α) : l.countP (fun x => x = a) ≤ 1 := by
  induction l with
  | nil => simp
  | cons x xs ih =>
    rcases List.nodup_cons.mp hl with ⟨hx, hxs⟩
    rw [List.countP_cons]
    by_cases hxa : x = a
    · subst hxa
      have hz : xs.countP (fun y => decide (y = x)) = 0 :=
        List.countP_eq_zero.mpr fun y hy hyx =>
          hx ((decide_eq_true_eq.mp hyx) ▸ hy)
      simp [hz]
    · have hd : decide (x = a) = false := decide_eq_false hxa
      simp only [hd]
      simpa using ih hxs

lemma applyEntry_out_of_range (s : List Bool) (e : RelayEntry)
    (hlen : s.length = 32)
    (h : jsToInt32 e.relay ≤ 0 ∨ 32 < jsToInt32 e.relay) :
    applyEntry s e = s := by
  simp only [applyEntry]
  rw [if_neg]
  rw [hlen]
  omega

/-! ## Claim theorems -/

/-- C1: for a relay payload entry whose `relay` field is an integer in
[1,32], the snapshot built from a successful fetch holds, in slot
`relay - 1`, the boolean coercion (`!!`) of that entry's `on` field —
and when several entries target the same relay, the last one wins: the
conclusion is about the last entry whose relay coerces to `n`. -/
theorem snapshot_slot_eq_last_entry (pre post : List RelayEntry) (e : RelayEntry)
    (n : ℕ) (h1 : 1 ≤ n) (h2 : n ≤ 32) (hrel : e.relay = .vNum (n : ℚ))
    (hpost : ∀ x ∈ post, jsToInt32 x.relay ≠ (n : ℤ)) :
    (buildStates (pre ++ e :: post))[n - 1]? = some (jsTruthy e.onVal) := by
  unfold buildStates
  rw [List.foldl_append, List.foldl_cons]
  have hn32 : jsToInt32 e.relay = (n : ℤ) := by
    rw [hrel]; exact jsToInt32_vNum_nat n h2
  have hlen : (pre.foldl applyEntry (List.replicate 32 false)).length = 32 := by
    rw [foldl_applyEntry_length, List.length_replicate]
  rw [foldl_applyEntry_getElem?_ne _ _ _ ?_]
  · simp only [applyEntry, hn32]
    rw [if_pos (by rw [hlen]; omega)]
    have htn : ((n : ℤ) - 1).toNat = n - 1 := by omega
    rw [htn]
    exact List.getElem?_set_self (by omega)
  · intro x hx
    have hxe := hpost x hx
    omega

/-- C1 witness: relay 5 appears twice (off then on) followed by relay 6;
slot 4 of the snapshot holds the last relay-5 value, `true`. -/
theorem snapshot_slot_eq_last_entry_witness :
    (buildStates [⟨.vNum 5, .vBool false⟩, ⟨.vNum 5, .vBool true⟩,
      ⟨.vNum 6, .vBool true⟩])[5 - 1]? = some (jsTruthy (JSValue.vBool true)) :=
  snapshot_slot_eq_last_entry [⟨.vNum 5, .vBool false⟩] [⟨.vNum 6, .vBool true⟩]
    ⟨.vNum 5, .vBool true⟩ 5 (by decide) (by decide) (by decide) (by decide)

/-- C2 counterexample: the claim says a non-integer `relay` value leaves
every snapshot slot untouched, but the entry `{relay: 3.5, on: true}` is
truncated by `|0` to relay 3 and sets slot 2, so the snapshot differs from
the untouched (all-false) one. -/
theorem nonint_relay_alters_slot :
    buildStates [⟨.vNum (mkRat 7 2), .vBool true⟩] ≠ buildStates [] ∧
    (buildStates [⟨.vNum (mkRat 7 2), .vBool true⟩])[2]? = some true ∧
    (buildStates [])[2]? = some false := by
  refine ⟨?_, ?_, ?_⟩ <;> decide

/-- C2 amended: an entry whose `relay`, after the `|0` int32 coercion
(truncation toward zero; non-numeric values coerce to 0), lies outside
[1,32] is ignored: it alters no snapshot slot and the remaining entries are
still processed exactly as if it were absent. (A non-integer numeric relay
is NOT ignored: it is truncated and applied to the truncated relay's slot.) -/
theorem out_of_range_entry_ignored (pre post : List RelayEntry) (e : RelayEntry)
    (h : jsToInt32 e.relay ≤ 0 ∨ 32 < jsToInt32 e.relay) :
    buildStates (pre ++ e :: post) = buildStates (pre ++ post) := by
  unfold buildStates
  rw [List.foldl_append, List.foldl_cons, List.foldl_append]
  congr 1
  exact applyEntry_out_of_range _ _
    (by rw [foldl_applyEntry_length, List.length_replicate]) h

/-- C2 amended witness: an entry with relay 0 (out of range) is dropped
while the relay-1 entry after it is still applied. -/
theorem out_of_range_entry_ignored_witness :
    buildStates [⟨.vNum 0, .vBool true⟩, ⟨.vNum 1, .vBool true⟩]
      = buildStates [⟨.vNum 1, .vBool true⟩] :=
  out_of_range_entry_ignored [] [⟨.vNum 1, .vBool true⟩]
    ⟨.vNum 0, .vBool true⟩ (by decide)

/-- C3 counterexample: the claim routes an ipx-sourced control whose
`ipxIndex` is finite but NOT a non-negative integer to the text fallback;
the code's guard is only `Number.isFinite`, so `ipxIndex="-1"` with
displayed text "ON" is painted from the (out-of-range) snapshot lookup —
off — where the claim demands the text coercion — on. -/
theorem finite_negative_index_disagrees :
    reconcileControl (some (List.replicate 32 false))
      ⟨some "ipx", some "-1", some "ON"⟩ = false ∧
    specPaintOriginal (some (List.replicate 32 false))
      ⟨some "ipx", some "-1", some "ON"⟩ = true := by
  constructor <;> decide

/-- C3 amended: the ipx branch is taken whenever the source is "ipx" and the
numeric conversion of `ipxIndex` is finite; inside it, the painted state is
the snapshot slot when the snapshot is non-null and the index is an integer
within the snapshot's length, and false otherwise (null snapshot, negative,
fractional or out-of-range index); every other control — source ≠ "ipx" or
a non-finite index — is painted from its displayed text. -/
theorem reconcile_matches_amended_spec (states : Option (List Bool))
    (c : Control) : reconcileControl states c = specPaintAmended states c := by
  unfold reconcileControl specPaintAmended
  cases hq : jsToNumberAttr c.ipxIndex with
  | none => simp [hq]
  | some q =>
    by_cases hsrc : c.source = some "ipx"
    · simp only [hq, hsrc, Option.isSome_some, and_true, if_pos, Option.getD_some,
        true_and, if_true]
      cases states with
      | none => rfl
      | some arr =>
        unfold arrLookup
        have hiff : (q.den = 1 ∧ 0 ≤ q.num ∧ q.num < (arr.length : ℤ)) ↔
            (0 ≤ q ∧ q.den = 1 ∧ q.num.toNat < arr.length) := by
          rw [← Rat.num_nonneg]
          constructor
          · rintro ⟨hd, hn, hl⟩; exact ⟨hn, hd, by omega⟩
          · rintro ⟨hn, hd, hl⟩; exact ⟨hd, hn, by omega⟩
        dsimp only
        rw [if_congr hiff rfl rfl]
    · simp [hq, hsrc]

/-- C4: the coercion helper returns true exactly for the literal boolean
true, a non-zero numeric, or a string whose trimmed and lowercased form is
one of "1", "true", "on", "yes"; and false for null, undefined, zero, the
literal false and every other string, including the empty one.  The closing
conjuncts check the spec's sample vector. -/
theorem toBool_exact_rule :
    (∀ v : JSValue, toBool v = true ↔
      (v = .vBool true ∨ (∃ q : ℚ, q ≠ 0 ∧ v = .vNum q) ∨
        (∃ s : String, v = .vStr s ∧
          (jsLower (jsTrim s) = "1" ∨ jsLower (jsTrim s) = "true" ∨
           jsLower (jsTrim s) = "on" ∨ jsLower (jsTrim s) = "yes")))) ∧
    toBool .vNull = false ∧ toBool .vUndefined = false ∧
    toBool (.vNum 0) = false ∧ toBool (.vBool false) = false ∧
    toBool (.vStr "") = false ∧ toBool (.vStr "TRUE") = true ∧
    toBool (.vNum (-1)) = true ∧ toBool (.vStr "0") = false ∧
    toBool (.vStr "Yes") = true ∧ toBool (.vStr "on") = true ∧
    toBool (.vNum (mkRat 7 2)) = true := by
  refine ⟨fun v => ?_, by decide, by decide, by decide, by decide, by decide,
    by decide, by decide, by decide, by decide, by decide, by decide⟩
  cases v with
  | vBool b => cases b <;> simp [toBool]
  | vNull => simp [toBool]
  | vUndefined => simp [toBool]
  | vNum q =>
    simp only [toBool, decide_eq_true_eq, JSValue.vNum.injEq]
    constructor
    · intro h; exact Or.inr (Or.inl ⟨q, h, rfl⟩)
    · rintro (h | ⟨q2, hq2, rfl, rfl⟩ | ⟨s, hs, _⟩) <;> simp_all
  | vStr s =>
    simp only [toBool, decide_eq_true_eq, JSValue.vStr.injEq]
    constructor
    · intro h; exact Or.inr (Or.inr ⟨s, rfl, h⟩)
    · rintro (h | ⟨q2, hq2, hs⟩ | ⟨s2, hs2, h⟩) <;> simp_all

/-- C5: when the status fetch fails the snapshot is null; with a null
snapshot every ipx-sourced control with a finite index is painted off while
every other control is still painted from its displayed text (the error
never escapes: `applyFromIPX` is total on `FetchOutcome.fail`).  The last
conjunct is the spec's Scenario B: ipx control with index 2 ends off, a
"other"-sourced control displaying "ON" ends on. -/
theorem fetch_failure_paints_fallback :
    snapshotOf .fail = none ∧
    snapshotOf .notOk = none ∧
    (∀ c : Control, c.source = some "ipx" →
      (jsToNumberAttr c.ipxIndex).isSome = true → reconcileControl none c = false) ∧
    (∀ c : Control,
      ¬(c.source = some "ipx" ∧ (jsToNumberAttr c.ipxIndex).isSome = true) →
      reconcileControl none c = applyFromText c) ∧
    applyFromIPX .fail [⟨some "ipx", some "2", some "ON"⟩,
      ⟨some "other", none, some "ON"⟩] = [false, true] := by
  refine ⟨rfl, rfl, ?_, ?_, by decide⟩
  · intro c h1 h2
    unfold reconcileControl
    rw [if_pos ⟨h1, h2⟩]
  · intro c h
    unfold reconcileControl
    rw [if_neg h]

/-- C5 witness: concrete instances of the two quantified conjuncts. -/
theorem fetch_failure_paints_fallback_witness :
    reconcileControl none ⟨some "ipx", some "5", some "ON"⟩ = false ∧
    reconcileControl none ⟨some "other", some "1", some "yes"⟩
      = applyFromText ⟨some "other", some "1", some "yes"⟩ :=
  ⟨fetch_failure_paints_fallback.2.2.1 ⟨some "ipx", some "5", some "ON"⟩ rfl
      (by decide),
    fetch_failure_paints_fallback.2.2.2.1 ⟨some "other", some "1", some "yes"⟩
      (by decide)⟩

/-- C6: with the trigger's expanded flag not "true" (the initial closed
state), a first click runs `open` — panel on screen, overlay shown,
flag "true" — and a second click runs `close`, so after two clicks the
net state is closed. -/
theorem trigger_click_toggles (s : MenuJs.State)
    (h : s.ariaExpanded ≠ some "true") :
    MenuJs.clickTrigger s =
      { sidebarOffscreen := false, overlayHidden := false,
        ariaExpanded := some "true" } ∧
    MenuJs.clickTrigger (MenuJs.clickTrigger s) =
      { sidebarOffscreen := true, overlayHidden := true,
        ariaExpanded := some "false" } := by
  unfold MenuJs.clickTrigger
  rw [if_neg h]
  exact ⟨rfl, by rfl⟩

/-- C6 witness: a freshly loaded page (panel hidden, no `aria-expanded`
attribute yet): click one opens, click two closes. -/
theorem trigger_click_toggles_witness :
    MenuJs.clickTrigger ⟨true, true, none⟩ =
      ⟨false, false, some "true"⟩ ∧
    MenuJs.clickTrigger (MenuJs.clickTrigger ⟨true, true, none⟩) =
      ⟨true, true, some "false"⟩ :=
  trigger_click_toggles ⟨true, true, none⟩ (by decide)

/-- C7: `close` is idempotent in both menu implementations: a second call
leaves the backdrop visibility, panel position/transform and expanded flag
exactly as the first call did. -/
theorem close_idempotent :
    (∀ s : MenuJs.State,
      MenuJs.closePanel (MenuJs.closePanel s) = MenuJs.closePanel s) ∧
    (∀ s : SelfMenu.State,
      SelfMenu.closePanel (SelfMenu.closePanel s) = SelfMenu.closePanel s) :=
  ⟨fun _ => rfl, fun _ => rfl⟩

/-- C8: link `i` is marked active exactly when its href equals the
normalized route (trailing slashes stripped, empty normalized to "/");
with pairwise-distinct hrefs at most one link is marked; with no matching
href none is marked; and in the spec's Scenario A — path "/events/" over
the nav list — exactly the "/events" link is marked. -/
theorem active_link_marking (path : String) (hrefs : List (Option String)) :
    (∀ i : ℕ, (markLinks path hrefs)[i]? =
      (hrefs[i]?).map fun h => decide (h = some (normalizePath path))) ∧
    (hrefs.Nodup → (markLinks path hrefs).count true ≤ 1) ∧
    (some (normalizePath path) ∉ hrefs →
      ∀ b ∈ markLinks path hrefs, b = false) ∧
    normalizePath "/events/" = "/events" ∧
    markLinks "/events/" navHrefs = [false, true, false, false, false, false] := by
  refine ⟨?_, ?_, ?_, by decide, by decide⟩
  · intro i
    simp [markLinks]
  · intro hnd
    have hcnt : (markLinks path hrefs).count true
        = hrefs.countP (fun h => h = some (normalizePath path)) := by
      unfold markLinks
      rw [List.count, List.countP_map]
      apply List.countP_congr
      intro h _
      simp only [Function.comp_apply, beq_true]
    rw [hcnt]
    exact countP_eq_value_le_one hrefs hnd _
  · intro hnm b hb
    simp only [markLinks, List.mem_map] at hb
    obtain ⟨x, hx, rfl⟩ := hb
    simp only [decide_eq_false_iff_not]
    rintro rfl
    exact hnm hx

/-- C8 witness: concrete instances of the two hypothesis-guarded conjuncts
over the nav list. -/
theorem active_link_marking_witness :
    (markLinks "/events/" navHrefs).count true ≤ 1 ∧
    (∀ b ∈ markLinks "/nope" navHrefs, b = false) :=
  ⟨(active_link_marking "/events/" navHrefs).2.1 (by decide),
    (active_link_marking "/nope" navHrefs).2.2.1 (by decide)⟩

/-- C9: when any of the three required anchors is missing, initialization
returns the no-op effect: zero listeners attached and no link's class
touched. -/
theorem missing_anchor_short_circuits (btn sidebar overlay : Bool)
    (path : String) (hrefs : List (Option String))
    (h : ¬(btn = true ∧ sidebar = true ∧ overlay = true)) :
    initMenu btn sidebar overlay path hrefs
      = ⟨0, hrefs.map fun _ => false⟩ ∧
    (initMenu btn sidebar overlay path hrefs).listeners = 0 ∧
    ∀ b ∈ (initMenu btn sidebar overlay path hrefs).marks, b = false := by
  have hcond : (btn && sidebar && overlay) = false := by
    cases btn <;> cases sidebar <;> cases overlay <;> simp_all
  have hres : initMenu btn sidebar overlay path hrefs
      = ⟨0, hrefs.map fun _ => false⟩ := by
    unfold initMenu
    rw [hcond]
    rfl
  refine ⟨hres, by rw [hres], ?_⟩
  rw [hres]
  intro b hb
  rw [List.mem_map] at hb
  obtain ⟨x, hx, rfl⟩ := hb
  rfl

/-- C9 witness: no trigger element on the page. -/
theorem missing_anchor_short_circuits_witness :
    initMenu false true true "/events" navHrefs
      = ⟨0, navHrefs.map fun _ => false⟩ ∧
    (initMenu false true true "/events" navHrefs).listeners = 0 ∧
    ∀ b ∈ (initMenu false true true "/events" navHrefs).marks, b = false :=
  missing_anchor_short_circuits false true true "/events" navHrefs (by decide)

/-- C10: an ipx-sourced control whose `ipxIndex` attribute trims to the
empty string converts to the finite number 0, so it is painted from
snapshot slot 0 — independent of its displayed text — and painted off when
the snapshot is null. -/
theorem empty_ipx_index_means_slot_zero (s : String) (hs : jsTrim s = "")
    (states : List Bool) (disp : Option String) :
    strToNumber s = some 0 ∧
    reconcileControl (some states) ⟨some "ipx", some s, disp⟩
      = states.getD 0 false ∧
    reconcileControl none ⟨some "ipx", some s, disp⟩ = false := by
  have hraw : strToNumberRaw s = some 0 := by
    unfold strToNumberRaw
    have hl : (jsTrim s).toList = [] := by rw [hs]; rfl
    rw [hl]
  have h0 : strToNumber s = some 0 := by
    unfold strToNumber
    rw [hraw, Option.some_bind]
    rw [if_neg (by decide)]
  refine ⟨h0, ?_, ?_⟩
  · unfold reconcileControl
    rw [if_pos ⟨rfl, by simp [jsToNumberAttr, h0]⟩]
    simp only [jsToNumberAttr, h0, Option.getD_some]
    unfold arrLookup
    cases states with
    | nil => simp
    | cons a l => simp [Rat.num_zero, Rat.den_zero]
  · unfold reconcileControl
    rw [if_pos ⟨rfl, by simp [jsToNumberAttr, h0]⟩]

/-- C10 witness: `ipxIndex=""` with snapshot slot 0 on and text "OFF": the
control is painted on, from the slot, not from the text. -/
theorem empty_ipx_index_means_slot_zero_witness :
    strToNumber "" = some 0 ∧
    reconcileControl (some (true :: List.replicate 31 false))
      ⟨some "ipx", some "", some "OFF"⟩
      = (true :: List.replicate 31 false).getD 0 false ∧
    reconcileControl none ⟨some "ipx", some "", some "OFF"⟩ = false :=
  empty_ipx_index_means_slot_zero "" (by decide)
    (true :: List.replicate 31 false) (some "OFF")

end HomeHub
